import Mathlib

/-!
Shallow embedding of the live-timer engine of KahitSan/pillar-ui.

Two implementation variants exist in the repository:
- `src/composite/LiveTimer/LiveTimer.tsx` (dual-rate: a dynamic ticker for the
  status label and a slow 10 s ticker for scenario and progress), embedded in
  namespace `LiveTimer`;
- the copy embedded at the end of `src/composite/MemberSearch.tsx` (single
  configurable global ticker), embedded in namespace `MemberSearch`.

JavaScript `Math.floor(a / b)` on integers is `Int.fdiv`; the JavaScript `%`
operator is the truncating remainder `Int.tmod`.  All second-valued quantities
in the source are integers (they are produced by `Math.floor`), so integer
arithmetic is exact; percentage arithmetic is done in `ℚ`, matching the exact
rational values the source computes on small integer inputs.
-/

namespace LiveTimer

/-- The five scenario constants of LiveTimer.tsx lines 176-180
(`SCENARIO_COUNTDOWN_TO_START = 0` through `SCENARIO_COUNTDOWN_TIMER = 4`),
as an enumeration. -/
inductive ScenarioKind where
  | countdownToStart
  | openTimer
  | overdue
  | completed
  | countdownTimer
deriving DecidableEq, Repr

/-- Abstraction of the values fed to `ensureDate` (LiveTimer.tsx lines 116-131):
a falsy value (null, undefined, empty string, the number 0), a string or number
that fails to parse as a date, or anything resolving to a valid instant at a
given number of milliseconds. -/
inductive DateValue where
  | absent
  | unparseable
  | valid (ms : Int)
deriving DecidableEq, Repr

/-- `ensureDate` (LiveTimer.tsx lines 116-131): falsy and unparseable values
yield `undefined`; valid dates yield the instant. -/
def ensureDate : DateValue → Option Int
  | .absent => none
  | .unparseable => none
  | .valid ms => some ms

/-- The second-valued window stored by the `timestamps` memo
(LiveTimer.tsx lines 246-249). -/
structure Timestamps where
  startSec : Int
  endSec : Option Int
deriving DecidableEq, Repr

/-- The `timestamps` memo (LiveTimer.tsx lines 237-250): throws when the start
does not resolve, otherwise stores floor-divided seconds.  A `Date` object is
always truthy, so a present end is always converted. -/
def timestamps (startAt endAt : DateValue) : Except String Timestamps :=
  match ensureDate startAt with
  | none => .error ("startAt must be a valid Date object or date string")
  | some startMs =>
      .ok { startSec := Int.fdiv startMs 1000
            endSec := (ensureDate endAt).map (fun endMs => Int.fdiv endMs 1000) }

/-- The `padZero` lookup table (LiveTimer.tsx line 134). -/
def padZero : List String := ["00", "01", "02", "03", "04", "05", "06", "07", "08", "09"]

/-- `pad2` (LiveTimer.tsx lines 135-137).  For a negative index JavaScript
array indexing yields `undefined`, which a template literal renders as the
string "undefined"; that branch is unreachable from the formatting claims,
which are stated over non-negative inputs. -/
def pad2 (n : Int) : String :=
  if n < 10 then
    (if 0 ≤ n then padZero.getD n.toNat ("undefined") else ("undefined"))
  else toString n

/-- `formatTime` (LiveTimer.tsx lines 140-146): zero-padded HH:MM:SS with
unbounded hours. -/
def formatTime (totalSeconds : Int) : String :=
  let hours := Int.fdiv totalSeconds 3600
  let minutes := Int.fdiv (Int.tmod totalSeconds 3600) 60
  let seconds := Int.tmod totalSeconds 60
  pad2 hours ++ ":" ++ pad2 minutes ++ ":" ++ pad2 seconds

/-- `formatTimeWithDays` (LiveTimer.tsx lines 149-162). -/
def formatTimeWithDays (totalSeconds : Int) : String :=
  if totalSeconds > 24 * 3600 then
    let days := Int.fdiv totalSeconds 86400
    let hours := Int.fdiv (Int.tmod totalSeconds 86400) 3600
    toString days ++ "d " ++ toString hours ++ "h"
  else formatTime totalSeconds

/-- `formatDuration` (LiveTimer.tsx lines 165-173). -/
def formatDuration (totalSeconds : Int) : String :=
  let hours := Int.fdiv totalSeconds 3600
  let minutes := Int.fdiv (Int.tmod totalSeconds 3600) 60
  if hours > 0 then toString hours ++ "h " ++ toString minutes ++ "m"
  else toString minutes ++ "m"

/-- The `scenario` memo (LiveTimer.tsx lines 260-272), here `scenarioOf`, as a pure function of
the frozen `nowSec` it reads from the slow tick. -/
def scenarioOf (nowSec startSec : Int) (endSec : Option Int) (overdue : Bool) : ScenarioKind :=
  if nowSec ≤ startSec then .countdownToStart
  else
    match endSec with
    | none => .openTimer
    | some e =>
        if nowSec ≥ e then (if overdue then .overdue else .completed)
        else .countdownTimer

/-- The `progress` memo (LiveTimer.tsx lines 275-310), as a pure function of
the frozen `nowSec` it reads from the slow tick.  `Option.getD endSec 0`
models the non-null assertion of the source, `endSec!`, which is only reached when
`endSec` is present. -/
def progress (nowSec startSec : Int) (endSec : Option Int) (overdue : Bool) : ℚ :=
  match scenarioOf nowSec startSec endSec overdue with
  | .countdownToStart =>
      let remainingSeconds : ℚ := (startSec : ℚ) - (nowSec : ℚ)
      min 100 (remainingSeconds / 3600 * 100)
  | .openTimer => 95
  | .overdue =>
      let e := Option.getD endSec 0
      let overdueSeconds : ℚ := (nowSec : ℚ) - (e : ℚ)
      let totalDuration : ℚ := (e : ℚ) - (startSec : ℚ)
      let overduePercent : ℚ := if totalDuration > 0 then overdueSeconds / totalDuration * 100 else 0
      100 + overduePercent
  | .completed => 100
  | .countdownTimer =>
      let e := Option.getD endSec 0
      let remainingSeconds : ℚ := (e : ℚ) - (nowSec : ℚ)
      let totalDuration : ℚ := (e : ℚ) - (startSec : ℚ)
      let elapsedSeconds : ℚ := totalDuration - remainingSeconds
      let progressPercent : ℚ := if totalDuration > 0 then elapsedSeconds / totalDuration * 100 else 100
      min 100 progressPercent

/-- The `statusLabel` memo (LiveTimer.tsx lines 313-347).  Its `nowSec` is
frozen from the dynamic tick, but `currentScenario` is read from the
scenario memo, which was computed from the slow tick; the scenario is
therefore a separate argument.  `Option.getD endSec 0` models `endSec!`. -/
def statusLabel (nowSec startSec : Int) (endSec : Option Int)
    (currentScenario : ScenarioKind) : String :=
  match currentScenario with
  | .countdownToStart => formatTimeWithDays (startSec - nowSec)
  | .openTimer => formatTimeWithDays (nowSec - startSec)
  | .overdue => formatTimeWithDays (nowSec - Option.getD endSec 0)
  | .completed => formatDuration (Option.getD endSec 0 - startSec)
  | .countdownTimer => formatTimeWithDays (Option.getD endSec 0 - nowSec)

/-- The fields of the rendered display state that the ordering guarantee of
the specification is about. -/
structure DisplayState where
  scenarioOf : ScenarioKind
  progressPercent : ℚ
  statusLabel : String
deriving DecidableEq, Repr

/-- One rendered snapshot of LiveTimer.tsx.  The scenario and `progress` read
the slow tick (`slowNowSec`); `statusLabel` reads the dynamic tick
(`dynNowSec`) while reusing the slow-tick scenario (lines 260-347). -/
def displayState (slowNowSec dynNowSec startSec : Int) (endSec : Option Int)
    (overdue : Bool) : DisplayState :=
  { scenarioOf := scenarioOf slowNowSec startSec endSec overdue
    progressPercent := progress slowNowSec startSec endSec overdue
    statusLabel := statusLabel dynNowSec startSec endSec
      (scenarioOf slowNowSec startSec endSec overdue) }

/-- The single-instant property claimed by the specification: all fields of a
display state derive from one frozen `nowSec`. -/
def singleInstant (startSec : Int) (endSec : Option Int) (overdue : Bool)
    (d : DisplayState) : Prop :=
  ∃ n : Int,
    d.scenarioOf = scenarioOf n startSec endSec overdue ∧
    d.progressPercent = progress n startSec endSec overdue ∧
    d.statusLabel = statusLabel n startSec endSec (scenarioOf n startSec endSec overdue)

end LiveTimer

namespace LiveTimer

/-- The module-level mutable state of the dynamic ticker
(LiveTimer.tsx lines 24-27): whether `dynamicTickSignal` is non-null, whether
`dynamicIntervalId` is non-null, the subscriber count, and `currentInterval`. -/
structure DynTicker where
  dynamicTickSignal : Bool
  dynamicIntervalId : Bool
  dynamicSubscriberCount : Int
  currentInterval : Nat
deriving DecidableEq, Repr

/-- The initial module state (LiveTimer.tsx lines 24-27): both globals null,
count 0, interval 1000 ms. -/
def initDyn : DynTicker := ⟨false, false, 0, 1000⟩

/-- The state effect of one call to `getDynamicTick`
(LiveTimer.tsx lines 29-84): the clock is created when the signal is null,
then the subscriber count is incremented. -/
def subscribeDyn (s : DynTicker) : DynTicker :=
  let s1 := if s.dynamicTickSignal then s
            else { s with dynamicTickSignal := true, dynamicIntervalId := true }
  { s1 with dynamicSubscriberCount := s1.dynamicSubscriberCount + 1 }

/-- `updateInterval`s choice of cadence (LiveTimer.tsx lines 34-52): 5 minutes
when the phase-relevant magnitude exceeds 24 hours, else 1 second; the
initial 1000 stands when no branch matches. -/
def updateIntervalValue (nowSec startSec : Int) (endSec : Option Int)
    (overdue : Bool) : Nat :=
  if nowSec ≤ startSec then
    (if startSec - nowSec > 24 * 3600 then 300000 else 1000)
  else
    match endSec with
    | some e =>
        if nowSec < e then (if e - nowSec > 24 * 3600 then 300000 else 1000)
        else if overdue then (if nowSec - e > 24 * 3600 then 300000 else 1000)
        else 1000
    | none => 1000

/-- The state effect of the `updateInterval` re-tuning that runs inside the
interval callback (LiveTimer.tsx lines 54-62): the interval is restarted only
while a clock exists and only when the computed cadence changed. -/
def retuneDyn (newInterval : Nat) (s : DynTicker) : DynTicker :=
  if s.dynamicIntervalId ∧ newInterval ≠ s.currentInterval then
    { s with currentInterval := newInterval, dynamicIntervalId := true }
  else s

/-- One tick of the dynamic clock, whose creating closure captured the window
`(startSec, endSec, overdue)` and reads the wall clock at `nowSec`
(LiveTimer.tsx lines 58-68). -/
def tickDyn (nowSec startSec : Int) (endSec : Option Int) (overdue : Bool)
    (s : DynTicker) : DynTicker :=
  retuneDyn (updateIntervalValue nowSec startSec endSec overdue) s

/-- The `onCleanup` handler of `getDynamicTick` (LiveTimer.tsx lines 73-81):
decrement, and when the count reaches zero with a live interval, clear the
interval and reset every global to its initial value. -/
def unsubscribeDyn (s : DynTicker) : DynTicker :=
  let c := s.dynamicSubscriberCount - 1
  if c = 0 ∧ s.dynamicIntervalId then
    { dynamicTickSignal := false, dynamicIntervalId := false
      dynamicSubscriberCount := c, currentInterval := 1000 }
  else { s with dynamicSubscriberCount := c }

/-- States of the dynamic ticker reachable from module load.  An `onCleanup`
handler only runs for a previously mounted subscriber, so unsubscription
requires a positive count. -/
inductive ReachDyn : DynTicker → Prop where
  | init : ReachDyn initDyn
  | subscribe {s : DynTicker} : ReachDyn s → ReachDyn (subscribeDyn s)
  | tick {s : DynTicker} (nowSec startSec : Int) (endSec : Option Int)
      (overdue : Bool) : ReachDyn s →
      ReachDyn (tickDyn nowSec startSec endSec overdue s)
  | unsubscribe {s : DynTicker} : ReachDyn s →
      0 < s.dynamicSubscriberCount → ReachDyn (unsubscribeDyn s)

/-- The module-level mutable state of the slow ticker
(LiveTimer.tsx lines 87-89). -/
structure SlowTicker where
  slowTickSignal : Bool
  slowIntervalId : Bool
  slowSubscriberCount : Int
deriving DecidableEq, Repr

/-- The initial slow-ticker module state. -/
def initSlow : SlowTicker := ⟨false, false, 0⟩

/-- The state effect of one call to `getSlowTick` (LiveTimer.tsx lines 91-113). -/
def subscribeSlow (s : SlowTicker) : SlowTicker :=
  let s1 := if s.slowTickSignal then s
            else { s with slowTickSignal := true, slowIntervalId := true }
  { s1 with slowSubscriberCount := s1.slowSubscriberCount + 1 }

/-- The `onCleanup` handler of `getSlowTick` (LiveTimer.tsx lines 103-110). -/
def unsubscribeSlow (s : SlowTicker) : SlowTicker :=
  let c := s.slowSubscriberCount - 1
  if c = 0 ∧ s.slowIntervalId then
    { slowTickSignal := false, slowIntervalId := false, slowSubscriberCount := c }
  else { s with slowSubscriberCount := c }

/-- States of the slow ticker reachable from module load. -/
inductive ReachSlow : SlowTicker → Prop where
  | init : ReachSlow initSlow
  | subscribe {s : SlowTicker} : ReachSlow s → ReachSlow (subscribeSlow s)
  | unsubscribe {s : SlowTicker} : ReachSlow s →
      0 < s.slowSubscriberCount → ReachSlow (unsubscribeSlow s)

end LiveTimer

namespace MemberSearch

/-- The module-level mutable state of the global ticker of MemberSearch.tsx
(lines 82-85): whether `globalTickSignal` and `globalIntervalId` are non-null,
the subscriber count, and `updateInterval`. -/
structure GlobalTicker where
  globalTickSignal : Bool
  globalIntervalId : Bool
  subscriberCount : Int
  updateInterval : Nat
deriving DecidableEq, Repr

/-- The initial module state (MemberSearch.tsx lines 82-85): both globals
null, count 0, default interval 10000 ms. -/
def initGlobal : GlobalTicker := ⟨false, false, 0, 10000⟩

/-- The state effect of one call to `getGlobalTick(interval)`
(MemberSearch.tsx lines 87-111): only when the signal is null is a clock
created, at the requested cadence; otherwise the existing clock, at whatever
cadence it already has, is shared.  The count is then incremented. -/
def getGlobalTick (interval : Nat) (s : GlobalTicker) : GlobalTicker :=
  let s1 := if s.globalTickSignal then s
            else { s with updateInterval := interval
                          globalTickSignal := true, globalIntervalId := true }
  { s1 with subscriberCount := s1.subscriberCount + 1 }

/-- The `onCleanup` handler of `getGlobalTick` (MemberSearch.tsx lines
101-108): decrement; at zero, clear the interval and null both globals
(`updateInterval` is left as is). -/
def unsubscribeGlobal (s : GlobalTicker) : GlobalTicker :=
  let c := s.subscriberCount - 1
  if c = 0 ∧ s.globalIntervalId then
    { s with subscriberCount := c, globalTickSignal := false, globalIntervalId := false }
  else { s with subscriberCount := c }

/-- The millisecond-valued window stored by the `timestamps` memo of
MemberSearch.tsx (lines 181-184). -/
structure TimestampsMs where
  startMs : Int
  endMs : Option Int
deriving DecidableEq, Repr

/-- The `timestamps` memo of MemberSearch.tsx (lines 172-185): throws when the
start does not resolve, otherwise stores raw milliseconds.  The helpers
`ensureDate`, `formatTime` and `formatDuration` of MemberSearch.tsx (lines
114-155) are verbatim copies of those of LiveTimer.tsx, so the `LiveTimer`
embeddings are reused. -/
def timestampsMs (startAt endAt : LiveTimer.DateValue) : Except String TimestampsMs :=
  match LiveTimer.ensureDate startAt with
  | none => .error ("startAt must be a valid Date object or date string")
  | some startMs =>
      .ok { startMs := startMs, endMs := LiveTimer.ensureDate endAt }

/-- The conversion `endMs ? Math.floor(endMs / 1000) : null` inside
`timerState` (MemberSearch.tsx line 195): the number 0 is falsy in
JavaScript, so an end instant of exactly the epoch degrades to null. -/
def msEndSec : Option Int → Option Int
  | none => none
  | some e => if e = 0 then none else some (Int.fdiv e 1000)

/-- The record returned by the `timerState` memo of MemberSearch.tsx
(lines 188-285).  The `icon` field (a UI component) is not modelled. -/
structure MsState where
  statusLabel : String
  progress : ℚ
  position : String
  colorClass : String
  label : String
  hidePercentage : Bool
  shimmer : Bool
deriving DecidableEq, Repr

/-- The body of the `timerState` memo of MemberSearch.tsx (lines 197-285),
after the second-valued conversions of lines 193-195. -/
def timerStateSec (nowSec startSec : Int) (endSec : Option Int)
    (overdue : Bool) : MsState :=
  if nowSec ≤ startSec then
    let remainingSeconds := startSec - nowSec
    { statusLabel := LiveTimer.formatTime remainingSeconds
      progress := min 100 ((remainingSeconds : ℚ) / 3600 * 100)
      position := "right"
      colorClass := "border border-blue-600/60 text-blue-400 hover:border-blue-500"
      label := "before start"
      hidePercentage := false
      shimmer := false }
  else
    match endSec with
    | none =>
        let elapsedSeconds := nowSec - startSec
        { statusLabel := LiveTimer.formatTime elapsedSeconds
          progress := 95
          position := "left"
          colorClass := "border border-green-600/60 text-green-400 hover:border-green-500"
          label := "Open time"
          hidePercentage := true
          shimmer := true }
    | some e =>
        let totalDuration := e - startSec
        if nowSec ≥ e ∧ overdue then
          let overdueSeconds := nowSec - e
          let overduePercent : ℚ :=
            if totalDuration > 0 then (overdueSeconds : ℚ) / (totalDuration : ℚ) * 100 else 0
          { statusLabel := LiveTimer.formatTime overdueSeconds
            progress := 100 + overduePercent
            position := "left"
            colorClass := "border border-red-600/60 text-red-400 hover:border-red-500"
            label := "Overdue"
            hidePercentage := false
            shimmer := false }
        else if nowSec ≥ e then
          { statusLabel := LiveTimer.formatDuration totalDuration
            progress := 100
            position := "left"
            colorClass := "border border-gray-600/60 text-gray-400 hover:border-gray-500"
            label := "Completed"
            hidePercentage := false
            shimmer := false }
        else
          let remainingSeconds := e - nowSec
          let elapsedSeconds := totalDuration - remainingSeconds
          let progressPercent : ℚ :=
            if totalDuration > 0 then (elapsedSeconds : ℚ) / (totalDuration : ℚ) * 100 else 100
          let colorClass :=
            if progressPercent ≤ 25 then
              "border border-green-600/60 text-green-400 hover:border-green-500"
            else if progressPercent ≤ 75 then
              "border border-amber-600/60 text-amber-400 hover:border-amber-500"
            else "border border-red-600/60 text-red-400 hover:border-red-500"
          { statusLabel := LiveTimer.formatTime remainingSeconds
            progress := min 100 progressPercent
            position := "left"
            colorClass := colorClass
            label := "Remaining"
            hidePercentage := false
            shimmer := false }

/-- The `timerState` memo of MemberSearch.tsx (lines 188-285) as a whole:
millisecond inputs converted to seconds (lines 193-195), then the body. -/
def timerState (nowMs startMs : Int) (endMs : Option Int) (overdue : Bool) : MsState :=
  timerStateSec (Int.fdiv nowMs 1000) (Int.fdiv startMs 1000) (msEndSec endMs) overdue

end MemberSearch

namespace Spec

open LiveTimer (ScenarioKind)

/-- Modelled from the spec (section 4.3): the scenario classifier stated by
priority order.  CountdownToStart when now is at most start; OpenTimer when
the end is absent; Overdue when now has reached the end and overdue is
allowed; Completed when now has reached the end and overdue is not allowed;
CountdownActive otherwise. -/
def classifySpec (nowSec startSec : Int) (endSec : Option Int)
    (overdueAllowed : Bool) : ScenarioKind :=
  if nowSec ≤ startSec then .countdownToStart
  else
    match endSec with
    | none => .openTimer
    | some e =>
        if nowSec ≥ e ∧ overdueAllowed = true then .overdue
        else if nowSec ≥ e ∧ overdueAllowed = false then .completed
        else .countdownTimer

/-- Modelled from the spec (section 4.4): the progress table, per scenario.
Remaining-to-start is scaled against a fixed one-hour window; the overdue
surplus and the active elapsed share are taken over the total duration, with
the degenerate total handled as stated.  The end-dependent rows are never
consulted with an absent end. -/
def progressSpec (sc : ScenarioKind) (nowSec startSec : Int)
    (endSec : Option Int) : ℚ :=
  match sc with
  | .countdownToStart => min 100 (((startSec : ℚ) - (nowSec : ℚ)) / 3600 * 100)
  | .openTimer => 95
  | .overdue =>
      match endSec with
      | some e =>
          100 + (if ((e : ℚ) - (startSec : ℚ)) ≤ 0 then 0
                 else ((nowSec : ℚ) - (e : ℚ)) / ((e : ℚ) - (startSec : ℚ)) * 100)
      | none => 0
  | .completed => 100
  | .countdownTimer =>
      match endSec with
      | some e =>
          if ((e : ℚ) - (startSec : ℚ)) ≤ 0 then 100
          else min 100 (((nowSec : ℚ) - (startSec : ℚ)) / ((e : ℚ) - (startSec : ℚ)) * 100)
      | none => 0

/-- The category label the MemberSearch.tsx variant attaches to each branch,
used to identify which branch of its `timerState` memo fired. -/
def msLabelOf : ScenarioKind → String
  | .countdownToStart => "before start"
  | .openTimer => "Open time"
  | .overdue => "Overdue"
  | .completed => "Completed"
  | .countdownTimer => "Remaining"

/-- Modelled from the spec (section 4.5): generic zero-padding to two digits. -/
def zeroPad2 (n : Nat) : String :=
  if n < 10 then "0" ++ toString n else toString n

/-- Modelled from the spec (section 4.5): `formatClock` renders zero-padded
HH:MM:SS with the hours field unbounded. -/
def formatClockSpec (s : Nat) : String :=
  zeroPad2 (s / 3600) ++ ":" ++ zeroPad2 (s % 3600 / 60) ++ ":" ++ zeroPad2 (s % 60)

/-- Modelled from the spec (section 4.5): `formatWithDayRollover` renders
days-and-hours above 24 hours, dropping minutes and seconds, and
`formatClock` otherwise. -/
def formatWithDayRolloverSpec (s : Nat) : String :=
  if 86400 < s then toString (s / 86400) ++ "d " ++ toString (s % 86400 / 3600) ++ "h"
  else formatClockSpec s

end Spec

/-! Helper lemmas: branch values of the classifier and of the progress
calculators, characterisation of the active-countdown branch, numeric
bridges between the JavaScript floor arithmetic and natural-number
arithmetic, and the reachability invariants of the ticker state machines. -/

namespace LiveTimer

theorem scenarioOf_cdts {n s : Int} (e : Option Int) (o : Bool) (h : n ≤ s) :
    scenarioOf n s e o = .countdownToStart := by
  simp [scenarioOf, h]

theorem scenarioOf_open {n s : Int} (o : Bool) (h : ¬ n ≤ s) :
    scenarioOf n s none o = .openTimer := by
  simp [scenarioOf, h]

theorem scenarioOf_over {n s e : Int} (h1 : ¬ n ≤ s) (h2 : e ≤ n) :
    scenarioOf n s (some e) true = .overdue := by
  simp [scenarioOf, h1, h2]

theorem scenarioOf_comp {n s e : Int} (h1 : ¬ n ≤ s) (h2 : e ≤ n) :
    scenarioOf n s (some e) false = .completed := by
  simp [scenarioOf, h1, h2]

theorem scenarioOf_cdt {n s e : Int} (o : Bool) (h1 : ¬ n ≤ s) (h2 : ¬ e ≤ n) :
    scenarioOf n s (some e) o = .countdownTimer := by
  simp [scenarioOf, h1, h2]

theorem progress_cdts {n s : Int} (e : Option Int) (o : Bool) (h : n ≤ s) :
    progress n s e o = min 100 (((s : ℚ) - n) / 3600 * 100) := by
  simp [progress, scenarioOf_cdts e o h]

theorem progress_open {n s : Int} (o : Bool) (h : ¬ n ≤ s) :
    progress n s none o = 95 := by
  simp [progress, scenarioOf_open o h]

theorem progress_over {n s e : Int} (h1 : ¬ n ≤ s) (h2 : e ≤ n) :
    progress n s (some e) true =
      100 + (if ((e : ℚ) - s) > 0 then ((n : ℚ) - e) / ((e : ℚ) - s) * 100 else 0) := by
  simp [progress, scenarioOf_over h1 h2]

theorem progress_comp {n s e : Int} (h1 : ¬ n ≤ s) (h2 : e ≤ n) :
    progress n s (some e) false = 100 := by
  simp [progress, scenarioOf_comp h1 h2]

theorem progress_cdt {n s e : Int} (o : Bool) (h1 : ¬ n ≤ s) (h2 : ¬ e ≤ n) :
    progress n s (some e) o =
      min 100 (if ((e : ℚ) - s) > 0
               then (((e : ℚ) - s) - ((e : ℚ) - n)) / ((e : ℚ) - s) * 100 else 100) := by
  simp [progress, scenarioOf_cdt o h1 h2]

theorem scenarioOf_cdt_bounds {n s : Int} {e : Option Int} {o : Bool}
    (h : scenarioOf n s e o = .countdownTimer) :
    ∃ e1, e = some e1 ∧ s < n ∧ n < e1 := by
  rcases e with _ | e1
  · by_cases h1 : n ≤ s <;> simp [scenarioOf, h1] at h
  · refine ⟨e1, rfl, ?_, ?_⟩ <;>
      by_cases h1 : n ≤ s <;> by_cases h2 : e1 ≤ n <;>
      cases o <;> simp [scenarioOf, h1, h2] at h <;> omega

theorem progress_cdt_value {n s e1 : Int} (o : Bool) (hs : s < n) (he : n < e1) :
    progress n s (some e1) o = min 100 (((n : ℚ) - s) / ((e1 : ℚ) - s) * 100) := by
  have h1 : ¬ n ≤ s := by omega
  have h2 : ¬ e1 ≤ n := by omega
  rw [progress_cdt o h1 h2]
  have ht : (0 : ℚ) < (e1 : ℚ) - s := by
    have h3 : (0 : Int) < e1 - s := by omega
    exact_mod_cast h3
  rw [if_pos ht]
  congr 1
  ring

theorem pad2_coe (n : Nat) : pad2 ((n : Int)) = Spec.zeroPad2 n := by
  unfold pad2 Spec.zeroPad2
  by_cases h : n < 10
  · have h1 : ((n : Int) < 10) := by exact_mod_cast h
    have h2 : (0 : Int) ≤ (n : Int) := by positivity
    rw [if_pos h1, if_pos h2, if_pos h]
    have h3 : ((n : Int)).toNat = n := by simp
    rw [h3]
    interval_cases n <;> rfl
  · have h1 : ¬ ((n : Int) < 10) := by exact_mod_cast h
    rw [if_neg h1, if_neg h]
    rfl

theorem fdiv_coe (m n : Nat) : Int.fdiv ((m : Int)) ((n : Int)) = ((m / n : Nat) : Int) :=
  (Int.ofNat_fdiv m n).symm

theorem tmod_coe (m n : Nat) : Int.tmod ((m : Int)) ((n : Int)) = ((m % n : Nat) : Int) := rfl

theorem formatTime_coe (s : Nat) : formatTime ((s : Int)) = Spec.formatClockSpec s := by
  show pad2 (Int.fdiv (s : Int) ((3600 : Nat) : Int)) ++ ":" ++
      pad2 (Int.fdiv (Int.tmod (s : Int) ((3600 : Nat) : Int)) ((60 : Nat) : Int)) ++ ":" ++
      pad2 (Int.tmod (s : Int) ((60 : Nat) : Int)) = Spec.formatClockSpec s
  rw [fdiv_coe, tmod_coe, fdiv_coe, tmod_coe, pad2_coe, pad2_coe, pad2_coe]
  rfl

theorem formatTimeWithDays_coe (s : Nat) :
    formatTimeWithDays ((s : Int)) = Spec.formatWithDayRolloverSpec s := by
  unfold formatTimeWithDays Spec.formatWithDayRolloverSpec
  by_cases h : 86400 < s
  · have h1 : ((s : Int) > 24 * 3600) := by omega
    rw [if_pos h1, if_pos h]
    show toString (Int.fdiv (s : Int) ((86400 : Nat) : Int)) ++ "d " ++
        toString (Int.fdiv (Int.tmod (s : Int) ((86400 : Nat) : Int)) ((3600 : Nat) : Int)) ++ "h" = _
    rw [fdiv_coe, tmod_coe, fdiv_coe]
    rfl
  · have h1 : ¬ ((s : Int) > 24 * 3600) := by omega
    rw [if_neg h1, if_neg h]
    exact formatTime_coe s

/-- The module invariant of the dynamic ticker: the count never goes
negative, the interval id is live exactly when the signal is, and the clock
exists exactly while there are subscribers. -/
def DynInv (s : DynTicker) : Prop :=
  0 ≤ s.dynamicSubscriberCount ∧
  s.dynamicIntervalId = s.dynamicTickSignal ∧
  (s.dynamicTickSignal = true ↔ 0 < s.dynamicSubscriberCount)

theorem reachDyn_inv {s : DynTicker} (h : ReachDyn s) : DynInv s := by
  induction h with
  | init => simp [DynInv, initDyn]
  | subscribe _ ih =>
      obtain ⟨i1, i2, i3⟩ := ih
      unfold DynInv subscribeDyn
      split_ifs with hs <;> simp_all <;> omega
  | tick nowSec startSec endSec overdue _ ih =>
      obtain ⟨i1, i2, i3⟩ := ih
      unfold DynInv tickDyn retuneDyn
      split_ifs with hs <;> simp_all
  | unsubscribe _ hpos ih =>
      obtain ⟨i1, i2, i3⟩ := ih
      simp only [DynInv, unsubscribeDyn]
      split_ifs with hs <;> simp_all <;> omega

/-- The module invariant of the slow ticker. -/
def SlowInv (s : SlowTicker) : Prop :=
  0 ≤ s.slowSubscriberCount ∧
  s.slowIntervalId = s.slowTickSignal ∧
  (s.slowTickSignal = true ↔ 0 < s.slowSubscriberCount)

theorem reachSlow_inv {s : SlowTicker} (h : ReachSlow s) : SlowInv s := by
  induction h with
  | init => simp [SlowInv, initSlow]
  | subscribe _ ih =>
      obtain ⟨i1, i2, i3⟩ := ih
      unfold SlowInv subscribeSlow
      split_ifs with hs <;> simp_all <;> omega
  | unsubscribe _ hpos ih =>
      obtain ⟨i1, i2, i3⟩ := ih
      simp only [SlowInv, unsubscribeSlow]
      split_ifs with hs <;> simp_all <;> omega

end LiveTimer

namespace MemberSearch

theorem ms_progress_cdts {n s : Int} (e : Option Int) (o : Bool) (h : n ≤ s) :
    (timerStateSec n s e o).progress = min 100 (((s - n : Int) : ℚ) / 3600 * 100) := by
  simp [timerStateSec, h]

theorem ms_progress_open {n s : Int} (o : Bool) (h : ¬ n ≤ s) :
    (timerStateSec n s none o).progress = 95 := by
  simp [timerStateSec, h]

theorem ms_progress_comp {n s e : Int} (h1 : ¬ n ≤ s) (h2 : e ≤ n) :
    (timerStateSec n s (some e) false).progress = 100 := by
  simp [timerStateSec, h1, h2]

theorem ms_progress_over {n s e : Int} (h1 : ¬ n ≤ s) (h2 : e ≤ n) :
    (timerStateSec n s (some e) true).progress =
      100 + (if 0 < e - s then ((n - e : Int) : ℚ) / ((e - s : Int) : ℚ) * 100 else 0) := by
  simp [timerStateSec, h1, h2]

theorem ms_progress_cdt {n s e : Int} (o : Bool) (h1 : ¬ n ≤ s) (h2 : ¬ e ≤ n) :
    (timerStateSec n s (some e) o).progress =
      min 100 (if 0 < e - s
               then ((e - s - (e - n) : Int) : ℚ) / ((e - s : Int) : ℚ) * 100 else 100) := by
  simp [timerStateSec, h1, h2]

end MemberSearch

/-! Claim theorems. -/

/-- C1, counterexample: the dual-rate variant can produce a DisplayState whose
fields are not all derived from one single frozen instant.  With the window
(startSec 0, endSec 100, overdue false), a slow-tick read at 50 and a
dynamic-tick read at 90 yield scenario CountdownTimer, progress 50 and status
label "00:00:10"; no single instant n produces this combination, because in
the CountdownTimer branch of this window the progress value pins n to 50,
whose label would be "00:00:50". -/
theorem liveTimer_torn_read_counterexample :
    ¬ LiveTimer.singleInstant 0 (some 100) false
        (LiveTimer.displayState 50 90 0 (some 100) false) := by
  rintro ⟨n, hsc, hp, hl⟩
  have d1 : (LiveTimer.displayState 50 90 0 (some 100) false).scenarioOf =
      .countdownTimer := by decide
  have d2 : (LiveTimer.displayState 50 90 0 (some 100) false).progressPercent = 50 := by
    show LiveTimer.progress 50 0 (some 100) false = 50
    simp [LiveTimer.progress, LiveTimer.scenarioOf]
    norm_num
  have d3 : (LiveTimer.displayState 50 90 0 (some 100) false).statusLabel =
      "00:00:10" := by decide
  rw [d1] at hsc
  rw [d2] at hp
  rw [d3] at hl
  obtain ⟨e1, he, hb1, hb2⟩ := LiveTimer.scenarioOf_cdt_bounds hsc.symm
  rw [Option.some.injEq] at he
  subst he
  rw [LiveTimer.progress_cdt_value false hb1 hb2] at hp
  push_cast at hp
  have hx : ((n : ℚ) - 0) / ((100 : ℚ) - 0) * 100 = (n : ℚ) := by ring
  rw [hx] at hp
  have hlt : (n : ℚ) < 100 := by exact_mod_cast hb2
  rw [min_eq_right (le_of_lt hlt)] at hp
  have hn : n = 50 := by exact_mod_cast hp.symm
  subst hn
  exact absurd hl (by decide)

/-- C1, amended: within one evaluated tick of the dual-rate variant, the
scenario and progressPercent fields are always computed from the same frozen
slow-tick instant, while statusLabel is computed from the dynamic-tick
instant reusing the slow-tick scenario; every field of the DisplayState
derives from one single instant whenever the two tick reads coincide, as
they always do in the single-tick timerState variant. -/
theorem liveTimer_single_instant_amended :
    ∀ (slowNow dynNow s : Int) (e : Option Int) (o : Bool),
      ((LiveTimer.displayState slowNow dynNow s e o).scenarioOf =
          LiveTimer.scenarioOf slowNow s e o ∧
        (LiveTimer.displayState slowNow dynNow s e o).progressPercent =
          LiveTimer.progress slowNow s e o) ∧
      (slowNow = dynNow →
        LiveTimer.singleInstant s e o (LiveTimer.displayState slowNow dynNow s e o)) := by
  intro slowNow dynNow s e o
  refine ⟨⟨rfl, rfl⟩, fun h => ?_⟩
  subst h
  exact ⟨slowNow, rfl, rfl, rfl⟩

/-- C1, witness for the amended theorem at the coinciding instant 5 with an
open window starting at 0. -/
theorem liveTimer_single_instant_amended_witness :
    (5 : Int) = 5 ∧
      LiveTimer.singleInstant 0 none false (LiveTimer.displayState 5 5 0 none false) :=
  ⟨rfl, (liveTimer_single_instant_amended 5 5 0 none false).2 rfl⟩

/-- C2: the scenario classifier of both variants follows the claimed priority
order: it agrees everywhere with the spec-worded classifier, the branch taken
by the timerState memo of MemberSearch.tsx (identified by its category label)
is the same one, and in particular every nowSec at most startSec yields
CountdownToStart. -/
theorem scenario_classifier_priority :
    (∀ (n s : Int) (e : Option Int) (o : Bool),
      LiveTimer.scenarioOf n s e o = Spec.classifySpec n s e o) ∧
    (∀ (n s : Int) (e : Option Int) (o : Bool),
      (MemberSearch.timerStateSec n s e o).label =
        Spec.msLabelOf (LiveTimer.scenarioOf n s e o)) ∧
    (∀ (n s : Int) (e : Option Int) (o : Bool),
      n ≤ s → LiveTimer.scenarioOf n s e o = LiveTimer.ScenarioKind.countdownToStart) := by
  refine ⟨?_, ?_, ?_⟩
  · intro n s e o
    rcases e with _ | e <;> cases o <;>
      simp only [LiveTimer.scenarioOf, Spec.classifySpec] <;> split_ifs <;> simp_all
  · intro n s e o
    rcases e with _ | e <;> cases o <;>
      simp only [MemberSearch.timerStateSec, LiveTimer.scenarioOf, Spec.msLabelOf] <;>
      split_ifs <;> simp_all
  · intro n s e o h
    simp [LiveTimer.scenarioOf, h]

/-- C2, witness: at nowSec 3 and startSec 5 the classifier returns
CountdownToStart. -/
theorem scenario_classifier_priority_witness :
    (3 : Int) ≤ 5 ∧
      LiveTimer.scenarioOf 3 5 none false = LiveTimer.ScenarioKind.countdownToStart :=
  ⟨by decide, scenario_classifier_priority.2.2 3 5 none false (by decide)⟩

/-- C3: for every window and every nowSec, the progress computed by both
variants equals the spec progress table evaluated at the classified scenario:
min 100 of remaining-to-start over one hour for CountdownToStart, the
constant 95 for OpenTimer, 100 plus the overdue share (0 when the total
duration is degenerate) for Overdue, the constant 100 for Completed, and the
elapsed share clamped at 100 (100 when the total duration is degenerate) for
CountdownActive. -/
theorem progress_per_scenario :
    (∀ (n s : Int) (e : Option Int) (o : Bool),
      LiveTimer.progress n s e o =
        Spec.progressSpec (LiveTimer.scenarioOf n s e o) n s e) ∧
    (∀ (n s : Int) (e : Option Int) (o : Bool),
      (MemberSearch.timerStateSec n s e o).progress =
        Spec.progressSpec (LiveTimer.scenarioOf n s e o) n s e) := by
  constructor
  · intro n s e o
    by_cases h1 : n ≤ s
    · rw [LiveTimer.progress_cdts e o h1, LiveTimer.scenarioOf_cdts e o h1]
      simp [Spec.progressSpec]
    · rcases e with _ | e
      · rw [LiveTimer.progress_open o h1, LiveTimer.scenarioOf_open o h1]
        simp [Spec.progressSpec]
      · by_cases h2 : e ≤ n
        · cases o
          · rw [LiveTimer.progress_comp h1 h2, LiveTimer.scenarioOf_comp h1 h2]
            simp [Spec.progressSpec]
          · rw [LiveTimer.progress_over h1 h2, LiveTimer.scenarioOf_over h1 h2]
            simp only [Spec.progressSpec]
            by_cases ht : ((e : ℚ) - s) > 0
            · rw [if_pos ht, if_neg (by linarith)]
            · rw [if_neg ht, if_pos (by linarith)]
        · rw [LiveTimer.progress_cdt o h1 h2, LiveTimer.scenarioOf_cdt o h1 h2]
          simp only [Spec.progressSpec]
          by_cases ht : ((e : ℚ) - s) > 0
          · rw [if_pos ht, if_neg (by linarith)]
            congr 1
            ring
          · rw [if_neg ht, if_pos (by linarith)]
            simp
  · intro n s e o
    by_cases h1 : n ≤ s
    · rw [MemberSearch.ms_progress_cdts e o h1, LiveTimer.scenarioOf_cdts e o h1]
      simp only [Spec.progressSpec]
      push_cast
      ring_nf
    · rcases e with _ | e
      · rw [MemberSearch.ms_progress_open o h1, LiveTimer.scenarioOf_open o h1]
        simp [Spec.progressSpec]
      · by_cases h2 : e ≤ n
        · cases o
          · rw [MemberSearch.ms_progress_comp h1 h2, LiveTimer.scenarioOf_comp h1 h2]
            simp [Spec.progressSpec]
          · rw [MemberSearch.ms_progress_over h1 h2, LiveTimer.scenarioOf_over h1 h2]
            simp only [Spec.progressSpec]
            by_cases ht : (0 : Int) < e - s
            · rw [if_pos ht, if_neg (by rw [not_le]; exact_mod_cast ht)]
              push_cast
              ring_nf
            · rw [if_neg ht, if_pos (by exact_mod_cast not_lt.mp ht)]
        · rw [MemberSearch.ms_progress_cdt o h1 h2, LiveTimer.scenarioOf_cdt o h1 h2]
          simp only [Spec.progressSpec]
          by_cases ht : (0 : Int) < e - s
          · rw [if_pos ht, if_neg (by rw [not_le]; exact_mod_cast ht)]
            congr 1
            push_cast
            ring
          · rw [if_neg ht, if_pos (by exact_mod_cast not_lt.mp ht)]
            simp

/-- C4: in both variants, construction of the timestamp window succeeds
exactly when the start instant resolves; a missing or unparseable start
raises the InvalidWindow error inside the construction itself (the
`timestamps` memo, evaluated synchronously during component setup), so no
window value - hence no DisplayState - is produced from an invalid start. -/
theorem invalidWindow_at_construction :
    ∀ endAt : LiveTimer.DateValue,
      (∀ startAt, ((LiveTimer.timestamps startAt endAt).isOk = true ↔
        (LiveTimer.ensureDate startAt).isSome = true)) ∧
      (∀ startAt, ((MemberSearch.timestampsMs startAt endAt).isOk = true ↔
        (LiveTimer.ensureDate startAt).isSome = true)) ∧
      LiveTimer.timestamps .absent endAt =
        .error ("startAt must be a valid Date object or date string") ∧
      LiveTimer.timestamps .unparseable endAt =
        .error ("startAt must be a valid Date object or date string") := by
  intro endAt
  refine ⟨?_, ?_, rfl, rfl⟩ <;>
    intro startAt <;>
    cases startAt <;>
    simp [LiveTimer.timestamps, MemberSearch.timestampsMs, LiveTimer.ensureDate,
      Except.isOk, Except.toBool]

/-- C5: for each of the two shared clocks of LiveTimer.tsx (the dynamic
ticker and the slow ticker), in every reachable module state the clock
exists exactly while the subscriber count is positive - it is created by the
first subscription and destroyed exactly when the count returns to zero -
and the teardown performed by the last unsubscription restores the pristine
initial module state (signal and interval id null, count zero, and for the
dynamic ticker cadence 1000), so a later fresh subscription starts from
state independent of any disposed clock. -/
theorem tick_refcount_lifecycle :
    (∀ s : LiveTimer.DynTicker, LiveTimer.ReachDyn s →
      (s.dynamicTickSignal = true ↔ 0 < s.dynamicSubscriberCount) ∧
      (s.dynamicSubscriberCount = 1 →
        LiveTimer.unsubscribeDyn s = LiveTimer.initDyn)) ∧
    (∀ t : LiveTimer.SlowTicker, LiveTimer.ReachSlow t →
      (t.slowTickSignal = true ↔ 0 < t.slowSubscriberCount) ∧
      (t.slowSubscriberCount = 1 →
        LiveTimer.unsubscribeSlow t = LiveTimer.initSlow)) := by
  constructor
  · intro s hs
    obtain ⟨i1, i2, i3⟩ := LiveTimer.reachDyn_inv hs
    refine ⟨i3, fun hone => ?_⟩
    have hid : s.dynamicIntervalId = true := by
      rw [i2]
      exact i3.mpr (by omega)
    simp only [LiveTimer.unsubscribeDyn]
    rw [if_pos ⟨by omega, hid⟩]
    simp [LiveTimer.initDyn]
    omega
  · intro t ht
    obtain ⟨i1, i2, i3⟩ := LiveTimer.reachSlow_inv ht
    refine ⟨i3, fun hone => ?_⟩
    have hid : t.slowIntervalId = true := by
      rw [i2]
      exact i3.mpr (by omega)
    simp only [LiveTimer.unsubscribeSlow]
    rw [if_pos ⟨by omega, hid⟩]
    simp [LiveTimer.initSlow]
    omega

/-- C5, witness: after one subscription from the initial state the dynamic
clock exists, and unsubscribing that single subscriber restores the initial
state exactly. -/
theorem tick_refcount_lifecycle_witness :
    (LiveTimer.subscribeDyn LiveTimer.initDyn).dynamicTickSignal = true ∧
      LiveTimer.unsubscribeDyn (LiveTimer.subscribeDyn LiveTimer.initDyn) =
        LiveTimer.initDyn := by
  have h := tick_refcount_lifecycle.1 (LiveTimer.subscribeDyn LiveTimer.initDyn)
    (LiveTimer.ReachDyn.subscribe LiveTimer.ReachDyn.init)
  exact ⟨h.1.mpr (by decide), h.2 (by decide)⟩

/-- C6, counterexample: the global ticker of MemberSearch.tsx does not keep
one clock per distinct cadence: a second subscriber requesting 5000 ms while
a first subscriber holds a 10000 ms clock is served by the existing 10000 ms
clock, so its requested cadence is not honored. -/
theorem globalTick_cadence_counterexample :
    (MemberSearch.getGlobalTick 5000
      (MemberSearch.getGlobalTick 10000 MemberSearch.initGlobal)).updateInterval ≠ 5000 := by
  decide

/-- C6, amended: a single shared clock exists for the global ticker, not one
per distinct cadence value; its cadence is the one requested by the
subscriber that finds the clock absent (the first subscription after module
load or after a teardown), and every later subscriber shares that clock at
that cadence regardless of the interval it requested, while the subscriber
count is incremented per subscription. -/
theorem globalTick_first_subscriber_cadence :
    ∀ (i : Nat) (s : MemberSearch.GlobalTicker),
      (MemberSearch.getGlobalTick i s).updateInterval =
        (if s.globalTickSignal then s.updateInterval else i) ∧
      (MemberSearch.getGlobalTick i s).subscriberCount = s.subscriberCount + 1 := by
  intro i s
  simp only [MemberSearch.getGlobalTick]
  split_ifs with h <;> simp

/-- C7: for every non-negative seconds value, formatTime renders the
zero-padded HH:MM:SS spec format with unbounded hours, and
formatTimeWithDays renders days-and-hours exactly above 86400 seconds and
the clock format otherwise. -/
theorem formatters_match_spec :
    ∀ s : Nat,
      LiveTimer.formatTime ((s : Int)) = Spec.formatClockSpec s ∧
      LiveTimer.formatTimeWithDays ((s : Int)) = Spec.formatWithDayRolloverSpec s :=
  fun s => ⟨LiveTimer.formatTime_coe s, LiveTimer.formatTimeWithDays_coe s⟩

/-- C8: at startSec 0, endSec 100, overdue false and nowSec 150 the engine
produces scenario Completed, progress exactly 100 and status label exactly
"1m" (formatDuration of the 100 second total duration). -/
theorem completed_snapshot_example :
    LiveTimer.displayState 150 150 0 (some 100) false =
      { scenarioOf := .completed, progressPercent := 100, statusLabel := "1m" } := by
  simp [LiveTimer.displayState, LiveTimer.progress, LiveTimer.scenarioOf,
    LiveTimer.statusLabel]
  decide

/-- C9: for a fixed window, the progress of the dual-rate variant is
non-decreasing in nowSec across instants classified CountdownActive. -/
theorem progress_monotone_countdownActive
    (s : Int) (e : Option Int) (o : Bool) (n1 n2 : Int)
    (h12 : n1 ≤ n2)
    (hs1 : LiveTimer.scenarioOf n1 s e o = .countdownTimer)
    (hs2 : LiveTimer.scenarioOf n2 s e o = .countdownTimer) :
    LiveTimer.progress n1 s e o ≤ LiveTimer.progress n2 s e o := by
  obtain ⟨e1, rfl, hb1, hb2⟩ := LiveTimer.scenarioOf_cdt_bounds hs1
  obtain ⟨e2, he, hc1, hc2⟩ := LiveTimer.scenarioOf_cdt_bounds hs2
  rw [Option.some.injEq] at he
  subst he
  rw [LiveTimer.progress_cdt_value o hb1 hb2, LiveTimer.progress_cdt_value o hc1 hc2]
  have ht : (0 : ℚ) < (e1 : ℚ) - s := by
    have h3 : (0 : Int) < e1 - s := by omega
    exact_mod_cast h3
  refine min_le_min le_rfl ?_
  have hn : ((n1 : ℚ) - s) ≤ ((n2 : ℚ) - s) := by
    have h4 : (n1 : ℚ) ≤ (n2 : ℚ) := by exact_mod_cast h12
    linarith
  gcongr

/-- C9, witness: for the window (0, 100, false) and the CountdownActive
instants 50 and 60, progress is monotone. -/
theorem progress_monotone_countdownActive_witness :
    (50 : Int) ≤ 60 ∧
      LiveTimer.scenarioOf 50 0 (some 100) false = .countdownTimer ∧
      LiveTimer.scenarioOf 60 0 (some 100) false = .countdownTimer ∧
      LiveTimer.progress 50 0 (some 100) false ≤ LiveTimer.progress 60 0 (some 100) false :=
  ⟨by decide, by decide, by decide,
    progress_monotone_countdownActive 0 (some 100) false 50 60
      (by decide) (by decide) (by decide)⟩

/-- C10: a valid start with an unparseable end constructs successfully in
both variants, the end degrades to absent, and with an absent end every
nowSec past startSec is classified OpenTimer (and every earlier one
CountdownToStart); a malformed end never fails construction. -/
theorem malformed_end_degrades_to_open :
    ∀ (ms : Int) (o : Bool),
      LiveTimer.timestamps (.valid ms) .unparseable =
        .ok { startSec := Int.fdiv ms 1000, endSec := none } ∧
      MemberSearch.timestampsMs (.valid ms) .unparseable =
        .ok { startMs := ms, endMs := none } ∧
      (∀ n s : Int, LiveTimer.scenarioOf n s none o =
        (if n ≤ s then .countdownToStart else .openTimer)) := by
  intro ms o
  refine ⟨rfl, rfl, ?_⟩
  intro n s
  by_cases h : n ≤ s <;> simp [LiveTimer.scenarioOf, h]
